import Mathlib

/-!
Verification of gpt-load (multi-tenant LLM reverse proxy) core behaviours.

This file shallowly embeds the parts of the Go code relevant to the claims:
the channel adapters (`openai_channel.go`, `anthropic_channel.go`), the model
service (`model_service.go`), the Prometheus metrics package (`metrics.go`),
and the playground handler. Go strings become Lean `String`, Go `int64`
becomes `Int`, timestamps become `Int`, nullable columns become `Option`,
and the database rows touched by an operation become explicit lists threaded
through the function. Definitions come first, theorems afterwards.
-/

namespace GptLoad

/-- Bool test that the second list is a leading segment of the first
(the inner comparison loop of Go `strings.Contains`). -/
def leadSeg : List Char → List Char → Bool
| _, [] => true
| [], _ :: _ => false
| c :: cs, d :: ds => c == d && leadSeg cs ds

/-- Bool test that the second list occurs contiguously inside the first. -/
def subSeg : List Char → List Char → Bool
| [], pat => leadSeg [] pat
| c :: t, pat => leadSeg (c :: t) pat || subSeg t pat

/-- Embeds Go `strings.Contains s pat`. -/
def strContains (s pat : String) : Bool :=
  subSeg s.data pat.data

/-- Embeds Go `strings.TrimRight s "/"`: drop every trailing slash. -/
def trimRightSlash (s : String) : String :=
  String.mk ((s.data.reverse.dropWhile (fun c => c == '/')).reverse)

/-- The request-context fields that `IsStreamRequest` inspects: the `Accept`
header value (`c.GetHeader "Accept"`) and the `stream` query parameter value
(`c.Query "stream"`, empty when absent). -/
structure GinCtx where
  accept : String
  streamQuery : String
deriving DecidableEq

/-- Result of `json.Unmarshal(bodyBytes, &streamPayload)`: either the body is
valid JSON and yields a `stream` boolean (absent field decodes to `false`),
or unmarshalling fails. -/
inductive BodyParse where
| ok (stream : Bool)
| failed
deriving DecidableEq

/-- Embeds `IsStreamRequest` of `openai_channel.go` (lines 45-63) and the
identical `anthropic_channel.go` (lines 46-64): Accept header check, then
query check, then the body payload, with parse failure yielding `false`. -/
def IsStreamRequest (c : GinCtx) (body : BodyParse) : Bool :=
  if strContains c.accept "text/event-stream" then true
  else if c.streamQuery == "true" then true
  else match body with
  | BodyParse.ok b => b
  | BodyParse.failed => false

/-- The portion of an upstream HTTP response that the validation code reads:
status code and (readable) body. -/
structure UpstreamResponse where
  statusCode : Nat
  body : String
deriving DecidableEq

/-- Embeds the response classification of `ValidateKey` (both channels): any
2xx is valid; otherwise the body goes through the shared upstream-error
parser (kept abstract as `parse`) and the error reads `[status N] msg`. -/
def validateKeyClassify (parse : String → String) (resp : UpstreamResponse) : Bool × Option String :=
  if 200 ≤ resp.statusCode ∧ resp.statusCode < 300 then (true, none)
  else (false, some ("[status " ++ toString resp.statusCode ++ "] " ++ parse resp.body))

/-- A parsed URL as `net/url` presents it to this code: scheme, host, path,
raw query. -/
structure URL where
  scheme : String
  host : String
  path : String
  rawQuery : String
deriving DecidableEq

/-- Embeds the probe-URL construction of `ValidateKey` (openai_channel.go
lines 84-93): copy the upstream URL, replace the path by the slash-trimmed
upstream path followed by the endpoint path, replace the query by the
endpoint query. -/
def buildProbeURL (upstream endpoint : URL) : URL :=
  { upstream with
    path := trimRightSlash upstream.path ++ endpoint.path
    rawQuery := endpoint.rawQuery }

/-- A `model_capabilities` row (`models.ModelCapabilities`): key
`(groupID, modelID)`, display name, capability flags, optional token limits,
an opaque `custom_capabilities` payload, the auto-fetch marker and the fetch
timestamp (an `Int` clock value, `none` for SQL NULL). -/
structure ModelCapabilities where
  groupID : Nat
  modelID : String
  modelName : String
  supportsStreaming : Bool := false
  supportsVision : Bool := false
  supportsFunctions : Bool := false
  maxTokens : Option Int := none
  maxInputTokens : Option Int := none
  maxOutputTokens : Option Int := none
  customCapabilities : Option String := none
  isAutoFetched : Bool := false
  lastFetchedAt : Option Int := none
deriving DecidableEq

/-- Embeds the per-model capability row built in the body of
`OpenAIChannel.FetchModels` (openai_channel.go lines 200-218): streaming is
always on, the functions flag is set inside the `gpt-4`/`gpt-3.5` branch,
and the vision flag is set inside that same branch when the id also
contains `vision`. -/
def openAICapability (gid : Nat) (now : Int) (id : String) : ModelCapabilities :=
  let base : ModelCapabilities :=
    { groupID := gid, modelID := id, modelName := id,
      supportsStreaming := true, isAutoFetched := true, lastFetchedAt := some now }
  if strContains id "gpt-4" || strContains id "gpt-3.5" then
    if strContains id "vision" then
      { base with supportsFunctions := true, supportsVision := true }
    else
      { base with supportsFunctions := true }
  else base

/-- Embeds the mapping of `OpenAIChannel.FetchModels` from the provider
catalog's `data[].id` list to capability rows. -/
def openAIFetchModels (gid : Nat) (now : Int) (ids : List String) : List ModelCapabilities :=
  ids.map (openAICapability gid now)

/-- The staleness predicate used by the count query of `RefreshStaleModels`:
auto-fetched and (`last_fetched_at IS NULL` or before the stale cutoff). -/
def isStaleAutoRow (staleTime : Int) (r : ModelCapabilities) : Bool :=
  r.isAutoFetched &&
    (match r.lastFetchedAt with
     | none => true
     | some t => decide (t < staleTime))

/-- Embeds `RefreshStaleModels` (model_service.go lines 141-172) over the
group's rows; the result is `true` exactly when the code calls
`FetchAndStoreModels`: the stale-row count is positive, or (second query)
the group has zero rows at all. -/
def refreshStaleInvokes (rows : List ModelCapabilities) (now staleDuration : Int) : Bool :=
  let staleTime := now - staleDuration
  let count := (rows.filter (isStaleAutoRow staleTime)).length
  if count > 0 then true
  else if rows.length == 0 then true
  else false

/-- A concrete auto-fetched row used in the refresh-skipped scenario. -/
def autoRowAt (t : Int) (i : Nat) : ModelCapabilities :=
  { groupID := 1, modelID := "m" ++ toString i, modelName := "m" ++ toString i,
    supportsStreaming := true, isAutoFetched := true, lastFetchedAt := some t }

/-- The key predicate of the upsert's lookup
(`WHERE group_id = ? AND model_id = ?` in `FetchAndStoreModels`). -/
def keyMatch (g : Nat) (m : String) (r : ModelCapabilities) : Bool :=
  r.groupID == g && r.modelID == m

/-- Embeds the update branch of `FetchAndStoreModels` (model_service.go
lines 65-92): the `updates` map touches `model_name`, the three `supports_*`
flags, `is_auto_fetched` and `last_fetched_at`, plus each optional token
limit only when the fetched capability carries a non-null value. No other
column of the existing row is written. -/
def applyUpsert (existing cap : ModelCapabilities) : ModelCapabilities :=
  { existing with
    modelName := cap.modelName
    supportsStreaming := cap.supportsStreaming
    supportsVision := cap.supportsVision
    supportsFunctions := cap.supportsFunctions
    isAutoFetched := cap.isAutoFetched
    lastFetchedAt := cap.lastFetchedAt
    maxTokens :=
      match cap.maxTokens with
      | some v => some v
      | none => existing.maxTokens
    maxInputTokens :=
      match cap.maxInputTokens with
      | some v => some v
      | none => existing.maxInputTokens
    maxOutputTokens :=
      match cap.maxOutputTokens with
      | some v => some v
      | none => existing.maxOutputTokens }

/-- One iteration of the upsert loop of `FetchAndStoreModels`: if a row with
the fetched capability's `(group_id, model_id)` exists, update it in place;
otherwise insert the fetched row. -/
def upsertOne (db : List ModelCapabilities) (cap : ModelCapabilities) : List ModelCapabilities :=
  if db.any (keyMatch cap.groupID cap.modelID) then
    db.map (fun r => if keyMatch cap.groupID cap.modelID r then applyUpsert r cap else r)
  else db ++ [cap]

/-- Embeds `FetchAndStoreModels` (model_service.go lines 29-97) given the
capabilities the channel returned: an empty fetch result is an error
(`none`); otherwise the whole batch is upserted transactionally. -/
def FetchAndStoreModels (db caps : List ModelCapabilities) : Option (List ModelCapabilities) :=
  if caps.isEmpty then none else some (caps.foldl upsertOne db)

/-- Row lookup by the upsert key. -/
def findCap (db : List ModelCapabilities) (g : Nat) (m : String) : Option ModelCapabilities :=
  db.find? (keyMatch g m)

/-- A row whose `custom_capabilities` was patched by an administrator. -/
def patchedRow : ModelCapabilities :=
  { groupID := 1, modelID := "a", modelName := "a", supportsStreaming := true,
    customCapabilities := some "patched", isAutoFetched := true, lastFetchedAt := some 1 }

/-- The row for the same model as fetched again from the provider. -/
def refetchRow : ModelCapabilities :=
  { groupID := 1, modelID := "a", modelName := "a", supportsStreaming := true,
    isAutoFetched := true, lastFetchedAt := some 2 }

/-- The labels of the request/response size histograms. -/
structure LabelPair where
  method : String
  endpoint : String
deriving DecidableEq

/-- The observable effect of the metrics sink on the four HTTP series: each
list records, in order, the label tuples (and for the size histograms the
observed values) of the samples delivered to the series. The duration value
itself is a float and is not modelled; only the fact of its observation is. -/
structure MetricsState where
  requestsTotal : List (String × String × String)
  durationObs : List (String × String × String)
  requestSizeObs : List (LabelPair × Int)
  responseSizeObs : List (LabelPair × Int)
deriving DecidableEq

/-- Embeds `RecordHTTPRequest` (metrics.go lines 143-154): always bump the
request counter and the duration histogram; observe each size histogram only
when the corresponding size is strictly positive. -/
def RecordHTTPRequest (st : MetricsState) (method endpoint : String) (status : Nat)
    (reqSize respSize : Int) : MetricsState :=
  let statusStr := toString status
  let st1 := { st with requestsTotal := st.requestsTotal ++ [(method, endpoint, statusStr)] }
  let st2 := { st1 with durationObs := st1.durationObs ++ [(method, endpoint, statusStr)] }
  let st3 :=
    if reqSize > 0 then
      { st2 with requestSizeObs := st2.requestSizeObs ++ [(⟨method, endpoint⟩, reqSize)] }
    else st2
  if respSize > 0 then
    { st3 with responseSizeObs := st3.responseSizeObs ++ [(⟨method, endpoint⟩, respSize)] }
  else st3

/-- The ten collectors that `Init` registers (metrics.go lines 104-116),
identified by their metric names. -/
def metricNames : List String :=
  ["http_requests_total", "http_request_duration_seconds", "http_request_size_bytes",
   "http_response_size_bytes", "gpt_load_active_keys_total", "gpt_load_invalid_keys_total",
   "gpt_load_proxy_requests_total", "gpt_load_proxy_request_duration_seconds",
   "gpt_load_key_rotations_total", "gpt_load_key_validation_total"]

/-- Outcome of `prometheus.Register` on the process registry (modelled as
the list of registered collector names): registering a collector that is
already present yields `AlreadyRegisteredError`, otherwise the collector is
appended. Re-registering the identical collector is the only failure mode
reachable from `Init`, so no other error constructor is needed. -/
inductive RegOutcome where
| registered (reg : List String)
| alreadyRegistered
deriving DecidableEq

/-- Embeds one `prometheus.Register(metric)` call. -/
def registerCollector (reg : List String) (n : String) : RegOutcome :=
  if reg.contains n then RegOutcome.alreadyRegistered
  else RegOutcome.registered (reg ++ [n])

/-- One loop iteration of `Init` (metrics.go lines 118-127): an
`AlreadyRegisteredError` is expected and ignored, success installs the new
registry state. -/
def initStep (reg : List String) (n : String) : List String :=
  match registerCollector reg n with
  | RegOutcome.registered reg2 => reg2
  | RegOutcome.alreadyRegistered => reg

/-- Embeds `Init` (metrics.go lines 104-129): register every collector in
order, tolerating duplicates. It always returns `nil` because the only
registration error its state can produce is `AlreadyRegisteredError`. -/
def metricsInit (reg : List String) : List String :=
  metricNames.foldl initStep reg

/-- A group row as the playground handler reads it: id, unique name, channel
type and the ordered upstream base URLs. -/
structure Group where
  id : Nat
  name : String
  channelType : String
  upstreams : List String
deriving DecidableEq

/-- An API key row: owning group, ciphertext key value and status string
(`active` or `invalid`). -/
structure APIKey where
  id : Nat
  groupID : Nat
  keyValue : String
  status : String
deriving DecidableEq

/-- The bound fields of a playground chat request that the dispatch logic
reads (messages and temperature are copied verbatim into the JSON body,
which is not modelled). -/
structure PlaygroundChatRequest where
  groupName : String
  model : String
deriving DecidableEq

/-- The request line and headers of the upstream HTTP call the playground
builds (bodies are not modelled). -/
structure OutboundRequest where
  method : String
  url : String
  headers : List (String × String)
deriving DecidableEq

/-- Embeds `callOpenAI` (part_000 lines 97-152): POST to
`<base>/v1/chat/completions` with Bearer auth. -/
def callOpenAIRequest (baseURL apiKey model : String) : OutboundRequest :=
  { method := "POST", url := baseURL ++ "/v1/chat/completions",
    headers := [("Authorization", "Bearer " ++ apiKey), ("Content-Type", "application/json")] }

/-- Embeds `callGemini` (part_000 lines 154-229): POST to the
`generateContent` endpoint with the key in the query string. -/
def callGeminiRequest (baseURL apiKey model : String) : OutboundRequest :=
  { method := "POST",
    url := baseURL ++ "/v1beta/models/" ++ model ++ ":generateContent?key=" ++ apiKey,
    headers := [("Content-Type", "application/json")] }

/-- Embeds `callAnthropic` (part_000 lines 231-296): POST to
`<base>/v1/messages` with `x-api-key` and `anthropic-version`. -/
def callAnthropicRequest (baseURL apiKey model : String) : OutboundRequest :=
  { method := "POST", url := baseURL ++ "/v1/messages",
    headers := [("x-api-key", apiKey), ("anthropic-version", "2023-06-01"),
      ("Content-Type", "application/json")] }

/-- Embeds the channel-type switch of `PlaygroundChat` (part_000 lines
74-84): the `default` case falls back to the OpenAI call. -/
def buildPlaygroundRequest (channelType baseURL apiKey model : String) : OutboundRequest :=
  if channelType == "openai" then callOpenAIRequest baseURL apiKey model
  else if channelType == "gemini" then callGeminiRequest baseURL apiKey model
  else if channelType == "anthropic" then callAnthropicRequest baseURL apiKey model
  else callOpenAIRequest baseURL apiKey model

/-- What `PlaygroundChat` produces: the HTTP status written to the client,
the key rows as left in the database, and the upstream request dispatched
(if the flow got that far). -/
structure ChatResult where
  status : Nat
  keys : List APIKey
  dispatched : Option OutboundRequest
deriving DecidableEq

/-- Embeds `PlaygroundChat` (part_000 lines 32-95). `req` is the result of
`ShouldBindJSON` (`none` on a malformed payload), `choice` is the index the
`ORDER BY RANDOM()` selection ends up taking in the group's active-key list,
`decrypt` is the encryption service, and `upstreamOK` abstracts whether the
upstream call succeeds. The handler never writes key rows, which the
embedding makes explicit by returning the key list it was given. -/
def playgroundChat (db : List APIKey) (groups : List Group)
    (req : Option PlaygroundChatRequest) (choice : Nat)
    (decrypt : String → Option String)
    (upstreamOK : OutboundRequest → Bool) : ChatResult :=
  match req with
  | none => { status := 400, keys := db, dispatched := none }
  | some r =>
    match groups.find? (fun g => g.name == r.groupName) with
    | none => { status := 404, keys := db, dispatched := none }
    | some g =>
      match g.upstreams with
      | [] => { status := 400, keys := db, dispatched := none }
      | upstream :: _ =>
        match (db.filter (fun k => k.groupID == g.id && k.status == "active"))[choice]? with
        | none => { status := 500, keys := db, dispatched := none }
        | some key =>
          match decrypt key.keyValue with
          | none => { status := 500, keys := db, dispatched := none }
          | some plain =>
            let out := buildPlaygroundRequest g.channelType upstream plain r.model
            if upstreamOK out then { status := 200, keys := db, dispatched := some out }
            else { status := 500, keys := db, dispatched := some out }

theorem openAICapability_modelID (gid : Nat) (now : Int) (id : String) :
    (openAICapability gid now id).modelID = id := by
  unfold openAICapability
  cases hf : strContains id "gpt-4" || strContains id "gpt-3.5" <;>
    cases hv : strContains id "vision" <;> simp [hf, hv]

theorem openAICapability_flags (gid : Nat) (now : Int) (id : String) :
    (openAICapability gid now id).supportsStreaming = true ∧
    ((openAICapability gid now id).supportsFunctions = true ↔
      (strContains id "gpt-4" || strContains id "gpt-3.5") = true) ∧
    ((openAICapability gid now id).supportsVision = true ↔
      ((strContains id "gpt-4" || strContains id "gpt-3.5")
        && strContains id "vision") = true) := by
  unfold openAICapability
  cases hf : strContains id "gpt-4" || strContains id "gpt-3.5" <;>
    cases hv : strContains id "vision" <;> simp [hf, hv]

/-- C2: `IsStreamRequest` is true exactly when the Accept header contains
`text/event-stream`, or the `stream` query equals `true`, or the body parses
as JSON with a true `stream` field; a body that fails to parse contributes
nothing and yields `false` when no other signal is present. -/
theorem isStreamRequest_spec (c : GinCtx) (body : BodyParse) :
    IsStreamRequest c body = true ↔
      (strContains c.accept "text/event-stream" = true ∨
        c.streamQuery = "true" ∨ body = BodyParse.ok true) := by
  unfold IsStreamRequest
  by_cases h1 : strContains c.accept "text/event-stream" = true
  · simp [h1]
  · by_cases h2 : c.streamQuery = "true"
    · simp [h1, h2]
    · have h2b : (c.streamQuery == "true") = false := by
        simp [beq_iff_eq]
        exact h2
      rcases body with b | _
      · cases b <;> simp [h1, h2, h2b]
      · simp [h1, h2, h2b]

/-- C5: `ValidateKey` reports a key valid with no error exactly on a 2xx
upstream status; on any other status with readable body it reports invalid
with message `[status N] ` followed by the shared parser's extraction. -/
theorem validateKey_classify_spec (parse : String → String) (resp : UpstreamResponse) :
    ((validateKeyClassify parse resp = (true, none)) ↔
      (200 ≤ resp.statusCode ∧ resp.statusCode < 300)) ∧
    (¬ (200 ≤ resp.statusCode ∧ resp.statusCode < 300) →
      validateKeyClassify parse resp =
        (false, some ("[status " ++ toString resp.statusCode ++ "] " ++ parse resp.body))) := by
  unfold validateKeyClassify
  by_cases h : 200 ≤ resp.statusCode ∧ resp.statusCode < 300 <;> simp [h]

/-- C5 witness: a 401 probe response with body `err` is classified invalid
with the formatted reason, and a 204 response is classified valid. -/
theorem validateKey_classify_spec_witness :
    validateKeyClassify (fun s => s) ⟨401, "err"⟩ = (false, some "[status 401] err") ∧
    validateKeyClassify (fun s => s) ⟨204, ""⟩ = (true, none) := by
  constructor
  · exact (validateKey_classify_spec (fun s => s) ⟨401, "err"⟩).2 (by decide)
  · exact ((validateKey_classify_spec (fun s => s) ⟨204, ""⟩).1).2 (by decide)

/-- C6: the probe URL takes scheme and host from the upstream, its path is
the upstream path with trailing slashes removed followed by the endpoint
path, and its query is the endpoint query; concretely a sub-path upstream
`/base/` with endpoint `/v1/chat/completions?api-version=1` yields
`/base/v1/chat/completions` with query `api-version=1`. -/
theorem validateKey_url_composition (upstream endpoint : URL) :
    (buildProbeURL upstream endpoint).scheme = upstream.scheme ∧
    (buildProbeURL upstream endpoint).host = upstream.host ∧
    (buildProbeURL upstream endpoint).path = trimRightSlash upstream.path ++ endpoint.path ∧
    (buildProbeURL upstream endpoint).rawQuery = endpoint.rawQuery ∧
    buildProbeURL ⟨"https", "api.example.com", "/base/", ""⟩
        ⟨"", "", "/v1/chat/completions", "api-version=1"⟩ =
      ⟨"https", "api.example.com", "/base/v1/chat/completions", "api-version=1"⟩ := by
  refine ⟨rfl, rfl, rfl, rfl, ?_⟩
  decide

/-- C1 counterexample: the catalog id `vision` contains `vision` but the row
produced by `OpenAIChannel.FetchModels` for it has `supports_vision = false`,
because the vision check only runs inside the `gpt-4`/`gpt-3.5` branch. -/
theorem openAI_vision_counterexample :
    strContains "vision" "vision" = true ∧
    openAIFetchModels 1 0 ["vision"] =
      [{ groupID := 1, modelID := "vision", modelName := "vision",
         supportsStreaming := true, supportsVision := false, supportsFunctions := false,
         isAutoFetched := true, lastFetchedAt := some 0 }] := by
  decide

/-- C1 amended: every row produced by `OpenAIChannel.FetchModels` has
`supports_streaming = true`, `supports_functions = true` iff the id contains
`gpt-4` or `gpt-3.5`, and `supports_vision = true` iff the id contains
`vision` AND also contains `gpt-4` or `gpt-3.5`. -/
theorem openAI_fetchModels_capabilities (gid : Nat) (now : Int) (ids : List String)
    (cap : ModelCapabilities) (hmem : cap ∈ openAIFetchModels gid now ids) :
    cap.supportsStreaming = true ∧
    (cap.supportsFunctions = true ↔
      (strContains cap.modelID "gpt-4" || strContains cap.modelID "gpt-3.5") = true) ∧
    (cap.supportsVision = true ↔
      ((strContains cap.modelID "gpt-4" || strContains cap.modelID "gpt-3.5")
        && strContains cap.modelID "vision") = true) := by
  rcases List.mem_map.mp hmem with ⟨id, _, hcap⟩
  subst hcap
  rw [openAICapability_modelID]
  exact openAICapability_flags gid now id

/-- C1 amended witness: the row fetched for catalog id `gpt-4o` satisfies
the amended capability characterization. -/
theorem openAI_fetchModels_capabilities_witness :
    (openAICapability 1 0 "gpt-4o").supportsStreaming = true ∧
    ((openAICapability 1 0 "gpt-4o").supportsFunctions = true ↔
      (strContains (openAICapability 1 0 "gpt-4o").modelID "gpt-4" ||
        strContains (openAICapability 1 0 "gpt-4o").modelID "gpt-3.5") = true) ∧
    ((openAICapability 1 0 "gpt-4o").supportsVision = true ↔
      ((strContains (openAICapability 1 0 "gpt-4o").modelID "gpt-4" ||
        strContains (openAICapability 1 0 "gpt-4o").modelID "gpt-3.5")
        && strContains (openAICapability 1 0 "gpt-4o").modelID "vision") = true) :=
  openAI_fetchModels_capabilities 1 0 ["gpt-4o"] (openAICapability 1 0 "gpt-4o") (by decide)

/-- C3: `RefreshStaleModels` invokes `FetchAndStoreModels` exactly when some
auto-fetched row has a NULL or stale `last_fetched_at`, or the group has no
rows at all; concretely, three auto-fetched rows fetched one hour before
`now` with a 24-hour stale duration trigger zero provider calls. -/
theorem refreshStale_spec (rows : List ModelCapabilities) (now staleDuration : Int) :
    (refreshStaleInvokes rows now staleDuration =
      (rows.any (isStaleAutoRow (now - staleDuration)) || rows.isEmpty)) ∧
    refreshStaleInvokes [autoRowAt 96400 0, autoRowAt 96400 1, autoRowAt 96400 2]
      100000 86400 = false := by
  refine ⟨?_, by decide⟩
  simp only [refreshStaleInvokes]
  cases h : rows.any (isStaleAutoRow (now - staleDuration))
  · have hnil : rows.filter (isStaleAutoRow (now - staleDuration)) = [] := by
      rw [List.filter_eq_nil_iff]
      intro a ha
      have := List.any_eq_false.mp h a ha
      simp [this]
    simp only [hnil]
    cases rows <;> simp
  · rcases List.any_eq_true.mp h with ⟨x, hx, hpx⟩
    have hmem : x ∈ rows.filter (isStaleAutoRow (now - staleDuration)) :=
      List.mem_filter.mpr ⟨hx, hpx⟩
    have hpos : 0 < (rows.filter (isStaleAutoRow (now - staleDuration))).length :=
      List.length_pos.mpr (List.ne_nil_of_mem hmem)
    simp [hpos]

/-- C8: a call to `RecordHTTPRequest` appends an observation to the
request-size histogram exactly when the request size is strictly positive,
and to the response-size histogram exactly when the response size is
strictly positive; zero (or negative) sizes append nothing. -/
theorem recordHTTPRequest_size_observation (st : MetricsState) (m e : String) (s : Nat)
    (q p : Int) :
    (RecordHTTPRequest st m e s q p).requestSizeObs =
      st.requestSizeObs ++ (if q > 0 then [(⟨m, e⟩, q)] else []) ∧
    (RecordHTTPRequest st m e s q p).responseSizeObs =
      st.responseSizeObs ++ (if p > 0 then [(⟨m, e⟩, p)] else []) := by
  unfold RecordHTTPRequest
  by_cases hq : q > 0 <;> by_cases hp : p > 0 <;> simp [hq, hp]

theorem applyUpsert_customCapabilities (r cap : ModelCapabilities) :
    (applyUpsert r cap).customCapabilities = r.customCapabilities := rfl

theorem applyUpsert_keyMatch (g : Nat) (m : String) (r cap : ModelCapabilities) :
    keyMatch g m (applyUpsert r cap) = keyMatch g m r := rfl

theorem find?_map_eq {α : Type} (p : α → Bool) (f : α → α) (hp : ∀ x, p (f x) = p x) :
    ∀ l : List α, (l.map f).find? p = (l.find? p).map f := by
  intro l
  induction l with
  | nil => simp
  | cons a t ih =>
    cases ha : p a
    · rw [List.map_cons, List.find?_cons_of_neg _ (by rw [hp a, ha]; exact Bool.false_ne_true),
        List.find?_cons_of_neg _ (by rw [ha]; exact Bool.false_ne_true)]
      exact ih
    · rw [List.map_cons, List.find?_cons_of_pos _ (by rw [hp a]; exact ha),
        List.find?_cons_of_pos _ ha]
      rfl

theorem upsertOne_preserves_found (cap : ModelCapabilities) (g : Nat) (m : String)
    (db : List ModelCapabilities) (r : ModelCapabilities)
    (h : findCap db g m = some r) :
    ∃ r2, findCap (upsertOne db cap) g m = some r2 ∧
      r2.customCapabilities = r.customCapabilities := by
  unfold upsertOne
  by_cases hany : db.any (keyMatch cap.groupID cap.modelID) = true
  · rw [if_pos hany]
    have hp : ∀ x, keyMatch g m
        (if keyMatch cap.groupID cap.modelID x then applyUpsert x cap else x) =
        keyMatch g m x := by
      intro x
      by_cases hx : keyMatch cap.groupID cap.modelID x = true
      · rw [if_pos hx, applyUpsert_keyMatch]
      · rw [if_neg hx]
    refine ⟨if keyMatch cap.groupID cap.modelID r then applyUpsert r cap else r, ?_, ?_⟩
    · unfold findCap at h ⊢
      rw [find?_map_eq _ _ hp db, h]
      rfl
    · by_cases hr : keyMatch cap.groupID cap.modelID r = true
      · rw [if_pos hr, applyUpsert_customCapabilities]
      · rw [if_neg hr]
  · rw [if_neg hany]
    refine ⟨r, ?_, rfl⟩
    unfold findCap at h ⊢
    rw [List.find?_append, h]
    rfl

theorem foldl_upsert_preserves (g : Nat) (m : String) :
    ∀ (caps db : List ModelCapabilities) (r : ModelCapabilities),
      findCap db g m = some r →
      ∃ r2, findCap (caps.foldl upsertOne db) g m = some r2 ∧
        r2.customCapabilities = r.customCapabilities := by
  intro caps
  induction caps with
  | nil => intro db r h; exact ⟨r, h, rfl⟩
  | cons c t ih =>
    intro db r h
    rcases upsertOne_preserves_found c g m db r h with ⟨r2, h2, hc2⟩
    rcases ih (upsertOne db c) r2 h2 with ⟨r3, h3, hc3⟩
    exact ⟨r3, h3, hc3.trans hc2⟩

/-- C4: the auto-refresh upsert writes only `model_name`, the `supports_*`
flags, `is_auto_fetched`, `last_fetched_at` and those token limits the
fetched capability carries non-null; it never writes `custom_capabilities`
or the key columns, so any existing row's (possibly patched)
`custom_capabilities` value survives a full `FetchAndStoreModels` run. -/
theorem fetchAndStore_preserves_custom (db caps db2 : List ModelCapabilities)
    (g : Nat) (m : String) (r : ModelCapabilities)
    (hrun : FetchAndStoreModels db caps = some db2)
    (hfound : findCap db g m = some r) :
    (∀ existing cap : ModelCapabilities,
      (applyUpsert existing cap).customCapabilities = existing.customCapabilities ∧
      (applyUpsert existing cap).groupID = existing.groupID ∧
      (applyUpsert existing cap).modelID = existing.modelID ∧
      (cap.maxTokens = none →
        (applyUpsert existing cap).maxTokens = existing.maxTokens) ∧
      (cap.maxInputTokens = none →
        (applyUpsert existing cap).maxInputTokens = existing.maxInputTokens) ∧
      (cap.maxOutputTokens = none →
        (applyUpsert existing cap).maxOutputTokens = existing.maxOutputTokens)) ∧
    ∃ r2, findCap db2 g m = some r2 ∧ r2.customCapabilities = r.customCapabilities := by
  constructor
  · intro existing cap
    refine ⟨rfl, rfl, rfl, ?_, ?_, ?_⟩ <;> intro hn <;> simp [applyUpsert, hn]
  · have hdb2 : db2 = caps.foldl upsertOne db := by
      unfold FetchAndStoreModels at hrun
      split at hrun
      · exact absurd hrun (by simp)
      · exact (Option.some.inj hrun).symm
    subst hdb2
    exact foldl_upsert_preserves g m caps db r hfound

/-- C4 witness: a row with patched `custom_capabilities = "patched"` keeps it
through a `FetchAndStoreModels` run that re-fetches the same model. -/
theorem fetchAndStore_preserves_custom_witness :
    ((∀ existing cap : ModelCapabilities,
      (applyUpsert existing cap).customCapabilities = existing.customCapabilities ∧
      (applyUpsert existing cap).groupID = existing.groupID ∧
      (applyUpsert existing cap).modelID = existing.modelID ∧
      (cap.maxTokens = none →
        (applyUpsert existing cap).maxTokens = existing.maxTokens) ∧
      (cap.maxInputTokens = none →
        (applyUpsert existing cap).maxInputTokens = existing.maxInputTokens) ∧
      (cap.maxOutputTokens = none →
        (applyUpsert existing cap).maxOutputTokens = existing.maxOutputTokens)) ∧
    ∃ r2, findCap [applyUpsert patchedRow refetchRow] 1 "a" = some r2 ∧
      r2.customCapabilities = patchedRow.customCapabilities) :=
  fetchAndStore_preserves_custom [patchedRow] [refetchRow]
    [applyUpsert patchedRow refetchRow] 1 "a" patchedRow (by decide) (by decide)

theorem mem_initStep {reg : List String} {n : String} (a : String) (h : n ∈ reg) :
    n ∈ initStep reg a := by
  unfold initStep registerCollector
  cases hc : reg.contains a
  · simp only [hc, Bool.false_eq_true, if_false]
    exact List.mem_append_left _ h
  · simp only [hc, if_true]
    exact h

theorem mem_foldl_initStep (names : List String) :
    ∀ (reg : List String) (n : String), n ∈ reg → n ∈ names.foldl initStep reg := by
  induction names with
  | nil => intro reg n h; simpa using h
  | cons a t ih => intro reg n h; exact ih (initStep reg a) n (mem_initStep a h)

theorem self_mem_initStep (reg : List String) (a : String) : a ∈ initStep reg a := by
  unfold initStep registerCollector
  cases hc : reg.contains a
  · simp only [hc, Bool.false_eq_true, if_false]
    exact List.mem_append_right _ (List.mem_singleton_self a)
  · simp only [hc, if_true]
    exact List.elem_iff.mp hc

theorem names_mem_foldl_initStep (names : List String) :
    ∀ (reg : List String) (n : String), n ∈ names → n ∈ names.foldl initStep reg := by
  induction names with
  | nil => intro reg n h; cases h
  | cons a t ih =>
    intro reg n h
    rcases List.mem_cons.mp h with h | h
    · subst h
      exact mem_foldl_initStep t (initStep reg n) n (self_mem_initStep reg n)
    · exact ih (initStep reg a) n h

theorem foldl_initStep_of_subset (names : List String) :
    ∀ reg : List String, (∀ n ∈ names, n ∈ reg) → names.foldl initStep reg = reg := by
  induction names with
  | nil => intro reg _; rfl
  | cons a t ih =>
    intro reg hsub
    have ha : reg.contains a = true :=
      List.elem_iff.mpr (hsub a (List.mem_cons_self a t))
    have hstep : initStep reg a = reg := by
      unfold initStep registerCollector
      simp only [ha, if_true]
    rw [List.foldl_cons, hstep]
    exact ih reg (fun n hn => hsub n (List.mem_cons_of_mem a hn))

/-- C7: running the metrics `Init` twice from any starting registry succeeds
both times and leaves the registry identical to the state after the first
run: every collector is already present after the first run, so each
`Register` call of the second run returns the tolerated
`AlreadyRegisteredError` and changes nothing. -/
theorem metricsInit_idempotent (reg : List String) :
    metricsInit (metricsInit reg) = metricsInit reg ∧
    ∀ n ∈ metricNames, registerCollector (metricsInit reg) n =
      RegOutcome.alreadyRegistered := by
  have hmem : ∀ n ∈ metricNames, n ∈ metricsInit reg :=
    fun n hn => names_mem_foldl_initStep metricNames reg n hn
  constructor
  · exact foldl_initStep_of_subset metricNames (metricsInit reg) hmem
  · intro n hn
    unfold registerCollector
    have hc : (metricsInit reg).contains n = true := List.elem_iff.mpr (hmem n hn)
    simp only [hc, if_true]

/-- C7 witness: starting from the empty registry, a second `Init` leaves the
registry exactly as the first one did. -/
theorem metricsInit_idempotent_witness :
    metricsInit (metricsInit []) = metricsInit [] :=
  (metricsInit_idempotent []).1

/-- C9: when the key selected for a playground chat fails to decrypt, the
handler responds with HTTP 500, the stored key rows are returned exactly as
they were (the decryption failure marks no key invalid), and nothing is
dispatched upstream. -/
theorem playgroundChat_decrypt_failure (db : List APIKey) (groups : List Group)
    (r : PlaygroundChatRequest) (choice : Nat) (decrypt : String → Option String)
    (ok : OutboundRequest → Bool) (g : Group) (u : String) (rest : List String)
    (key : APIKey)
    (hg : groups.find? (fun x => x.name == r.groupName) = some g)
    (hu : g.upstreams = u :: rest)
    (hk : (db.filter (fun k => k.groupID == g.id && k.status == "active"))[choice]? = some key)
    (hd : decrypt key.keyValue = none) :
    playgroundChat db groups (some r) choice decrypt ok =
      { status := 500, keys := db, dispatched := none } := by
  unfold playgroundChat
  simp only [hg, hu, hk, hd]

/-- C9 witness: a one-key group whose ciphertext cannot be decrypted gets a
500 response and the key row is untouched. -/
theorem playgroundChat_decrypt_failure_witness :
    playgroundChat [⟨1, 1, "enc", "active"⟩] [⟨1, "grp", "openai", ["https://u.example"]⟩]
        (some ⟨"grp", "gpt-4o"⟩) 0 (fun _ => none) (fun _ => true) =
      { status := 500, keys := [⟨1, 1, "enc", "active"⟩], dispatched := none } :=
  playgroundChat_decrypt_failure [⟨1, 1, "enc", "active"⟩]
    [⟨1, "grp", "openai", ["https://u.example"]⟩] ⟨"grp", "gpt-4o"⟩ 0
    (fun _ => none) (fun _ => true) ⟨1, "grp", "openai", ["https://u.example"]⟩
    "https://u.example" [] ⟨1, 1, "enc", "active"⟩ (by decide) rfl (by decide) rfl

/-- C10: a playground chat against a group whose `channel_type` is none of
`openai`, `gemini` or `anthropic` is dispatched through the default switch
case, i.e. in the OpenAI request format: POST to
`<upstream>/v1/chat/completions` with a Bearer Authorization header. -/
theorem playgroundChat_default_channel (db : List APIKey) (groups : List Group)
    (r : PlaygroundChatRequest) (choice : Nat) (decrypt : String → Option String)
    (ok : OutboundRequest → Bool) (g : Group) (u : String) (rest : List String)
    (key : APIKey) (plain : String)
    (hg : groups.find? (fun x => x.name == r.groupName) = some g)
    (hct1 : g.channelType ≠ "openai") (hct2 : g.channelType ≠ "gemini")
    (hct3 : g.channelType ≠ "anthropic")
    (hu : g.upstreams = u :: rest)
    (hk : (db.filter (fun k => k.groupID == g.id && k.status == "active"))[choice]? = some key)
    (hd : decrypt key.keyValue = some plain) :
    (playgroundChat db groups (some r) choice decrypt ok).dispatched =
      some (callOpenAIRequest u plain r.model) ∧
    (callOpenAIRequest u plain r.model).method = "POST" ∧
    (callOpenAIRequest u plain r.model).url = u ++ "/v1/chat/completions" ∧
    ("Authorization", "Bearer " ++ plain) ∈ (callOpenAIRequest u plain r.model).headers := by
  have hbuild : buildPlaygroundRequest g.channelType u plain r.model =
      callOpenAIRequest u plain r.model := by
    unfold buildPlaygroundRequest
    rw [if_neg (by simp [hct1]), if_neg (by simp [hct2]), if_neg (by simp [hct3])]
  refine ⟨?_, rfl, rfl, ?_⟩
  · unfold playgroundChat
    simp only [hg, hu, hk, hd, hbuild]
    cases hok : ok (callOpenAIRequest u plain r.model) <;> simp [hok]
  · simp [callOpenAIRequest]

/-- C10 witness: a group with channel type `custom` gets the OpenAI-format
dispatch against its upstream. -/
theorem playgroundChat_default_channel_witness :
    (playgroundChat [⟨1, 1, "sk", "active"⟩] [⟨1, "grp", "custom", ["https://u.example"]⟩]
        (some ⟨"grp", "my-model"⟩) 0 (fun s => some s) (fun _ => true)).dispatched =
      some (callOpenAIRequest "https://u.example" "sk" "my-model") ∧
    (callOpenAIRequest "https://u.example" "sk" "my-model").method = "POST" ∧
    (callOpenAIRequest "https://u.example" "sk" "my-model").url =
      "https://u.example" ++ "/v1/chat/completions" ∧
    ("Authorization", "Bearer " ++ "sk") ∈
      (callOpenAIRequest "https://u.example" "sk" "my-model").headers :=
  playgroundChat_default_channel [⟨1, 1, "sk", "active"⟩]
    [⟨1, "grp", "custom", ["https://u.example"]⟩] ⟨"grp", "my-model"⟩ 0
    (fun s => some s) (fun _ => true) ⟨1, "grp", "custom", ["https://u.example"]⟩
    "https://u.example" [] ⟨1, 1, "sk", "active"⟩ "sk"
    (by decide) (by decide) (by decide) (by decide) rfl (by decide) rfl

end GptLoad
